import Mathlib

/-!
Verification of the forecast window-extraction and ranking pipeline of the
Windsurfing_Bot repository (src/forecast_parser.py) against its
natural-language specification.  Python floats are idealised as real numbers
(rationals where only field arithmetic and comparisons occur); float NaN is
modelled by `Option` with `none` standing for NaN/NaT; Python `None` is also
`Option.none`; pandas frames are lists of records.
-/

namespace WindBot

/-! ### Python string primitives used by `parse_datetime` -/

/-- Python slice `s[a:b]` for non-negative bounds: clamps, never raises. -/
def pySlice (s : String) (a b : Nat) : String :=
  ⟨(s.data.take b).drop a⟩

/-- Numeric value of a list of decimal digit characters. -/
def digitsVal (cs : List Char) : Nat :=
  cs.foldl (fun n c => 10 * n + (c.toNat - 48)) 0

/-- Python `int(s)`: optional surrounding spaces, optional sign, then one or
more decimal digits; anything else raises `ValueError`, modelled as `none`.
(Digit-group underscores accepted by Python 3.6+ are not modelled; no input
in this code base contains them.) -/
def pyInt (s : String) : Option Int :=
  let cs := (((s.data.dropWhile (· = ' ')).reverse.dropWhile (· = ' ')).reverse)
  match cs with
  | [] => none
  | '-' :: ds =>
      if ds ≠ [] ∧ ds.all (·.isDigit) then some (-(digitsVal ds : Int)) else none
  | '+' :: ds =>
      if ds ≠ [] ∧ ds.all (·.isDigit) then some (digitsVal ds : Int) else none
  | ds =>
      if ds.all (·.isDigit) then some (digitsVal ds : Int) else none

/-! ### Calendar timestamps (`datetime.datetime`) -/

/-- Naive Python `datetime.datetime` value (seconds and finer are unused). -/
structure PyDateTime where
  year : Nat
  month : Nat
  day : Nat
  hour : Nat
  minute : Nat
deriving DecidableEq, Repr

/-- Gregorian leap-year rule used by `datetime`. -/
def isLeap (y : Nat) : Bool :=
  y % 4 == 0 && (y % 100 != 0 || y % 400 == 0)

/-- Length of a month; 0 for an invalid month index. -/
def daysInMonth (y m : Nat) : Nat :=
  match m with
  | 1 => 31
  | 2 => if isLeap y then 29 else 28
  | 3 => 31
  | 4 => 30
  | 5 => 31
  | 6 => 30
  | 7 => 31
  | 8 => 31
  | 9 => 30
  | 10 => 31
  | 11 => 30
  | 12 => 31
  | _ => 0

/-- Range constraints enforced by the `datetime.datetime` constructor. -/
def PyDateTime.Valid (t : PyDateTime) : Prop :=
  1 ≤ t.year ∧ t.year ≤ 9999 ∧ 1 ≤ t.month ∧ t.month ≤ 12 ∧
  1 ≤ t.day ∧ t.day ≤ daysInMonth t.year t.month ∧ t.hour ≤ 23 ∧ t.minute ≤ 59

instance (t : PyDateTime) : Decidable t.Valid := by
  unfold PyDateTime.Valid; infer_instance

/-- Constructor `datetime(year, month, day, hour, minute)`: raises
`ValueError` (modelled `none`) outside the documented ranges. -/
def mkDatetime (y m : Nat) (d h mi : Int) : Option PyDateTime :=
  if 1 ≤ y ∧ y ≤ 9999 ∧ 1 ≤ m ∧ m ≤ 12 ∧
     1 ≤ d ∧ d ≤ (daysInMonth y m : Int) ∧ 0 ≤ h ∧ h ≤ 23 ∧ 0 ≤ mi ∧ mi ≤ 59 then
    some ⟨y, m, d.toNat, h.toNat, mi.toNat⟩
  else none

/-- Embedding of `parse_datetime` (src/forecast_parser.py lines 7-14): the
current run's year and month (`datetime.today()`) are explicit parameters;
the bare `except` that converts any raised error into `None` makes the
function total into `Option`. -/
def parse_datetime (year month : Nat) (val : String) : Option PyDateTime :=
  match pyInt (pySlice val 2 4) with
  | none => none
  | some day =>
    match pyInt (pySlice val 5 7) with
    | none => none
    | some hour =>
      match (if val.length = 9 then pyInt (pySlice val 7 9) else some 0) with
      | none => none
      | some minute => mkDatetime year month day hour minute

/-! ### Angular statistics (`circular_mean`) -/

open Real in
/-- `np.deg2rad`. -/
noncomputable def deg2rad (d : ℝ) : ℝ := d * (π / 180)

open Real in
/-- `np.rad2deg`. -/
noncomputable def rad2deg (r : ℝ) : ℝ := r * (180 / π)

open Real in
/-- `np.arctan2 y x` on (idealised) reals: the angle in `(-π, π]` of the
point `(x, y)`, with `arctan2 0 0 = 0` as in IEEE/numpy. -/
noncomputable def arctan2 (y x : ℝ) : ℝ :=
  if 0 < x then arctan (y / x)
  else if x < 0 ∧ 0 ≤ y then arctan (y / x) + π
  else if x < 0 ∧ y < 0 then arctan (y / x) - π
  else if x = 0 ∧ 0 < y then π / 2
  else if x = 0 ∧ y < 0 then -(π / 2)
  else 0

/-- Python float `a % b`: `a - b * floor (a / b)` (sign of the divisor). -/
noncomputable def pyMod (a b : ℝ) : ℝ := a - b * ⌊a / b⌋

/-- Embedding of `circular_mean` (src/forecast_parser.py lines 16-21). -/
noncomputable def circular_mean (degrees : List ℝ) : ℝ :=
  let radians := degrees.map deg2rad
  let sin_sum := (radians.map Real.sin).sum
  let cos_sum := (radians.map Real.cos).sum
  let mean_angle := arctan2 sin_sum cos_sum
  pyMod (rad2deg mean_angle + 360) 360

/-! ### Observations, configuration, and the Window Detector -/

/-- Cleaned per-site observation row (post numeric coercion and `dropna`). -/
structure Obs where
  datetime : PyDateTime
  wind_speed : ℚ
  wind_dir : ℚ
  wind_gust : ℚ
deriving DecidableEq, Repr

/-- Configuration object consumed by the core.  The two weights are looked up
with `config.get(key, default)`, hence optional. -/
structure Config where
  DAY_START_HOUR : Nat
  DAY_END_HOUR : Nat
  MIN_WIND_KNOTS : ℚ
  MIN_BLOCK_LENGTH : Nat
  WIND_WEIGHT : Option ℚ := none
  DURATION_WEIGHT : Option ℚ := none
deriving DecidableEq, Repr

/-- Minutes past midnight of a timestamp's time-of-day. -/
def timeOfDay (t : PyDateTime) : Nat := t.hour * 60 + t.minute

/-- Pandas `between_time(start, end)` predicate on one timestamp: both bounds
inclusive; when `start > end` the range wraps across midnight. -/
def betweenTime (startH endH : Nat) (t : PyDateTime) : Bool :=
  let tod := timeOfDay t
  if startH * 60 ≤ endH * 60 then
    decide (startH * 60 ≤ tod ∧ tod ≤ endH * 60)
  else
    decide (startH * 60 ≤ tod ∨ tod ≤ endH * 60)

/-- The two filters of `is_valid_window` (lines 25-26): restrict to the
daytime range, then to speeds at or above the threshold. -/
def filter_window (df : List Obs) (config : Config) : List Obs :=
  (df.filter (fun o => betweenTime config.DAY_START_HOUR config.DAY_END_HOUR o.datetime)).filter
    (fun o => decide (config.MIN_WIND_KNOTS ≤ o.wind_speed))

/-- Python datetime ordering: lexicographic on (year, month, day, hour,
minute). -/
def dtLe (a b : PyDateTime) : Bool :=
  if a.year = b.year then
    if a.month = b.month then
      if a.day = b.day then
        if a.hour = b.hour then decide (a.minute ≤ b.minute)
        else decide (a.hour < b.hour)
      else decide (a.day < b.day)
    else decide (a.month < b.month)
  else decide (a.year < b.year)

/-- Minimum of a timestamp list (`df.index.min()`), seeded by one element. -/
def listMinDT (t : PyDateTime) (ts : List PyDateTime) : PyDateTime :=
  ts.foldl (fun a b => if dtLe a b then a else b) t

/-- Maximum of a timestamp list (`df.index.max()`), seeded by one element. -/
def listMaxDT (t : PyDateTime) (ts : List PyDateTime) : PyDateTime :=
  ts.foldl (fun a b => if dtLe b a then a else b) t

/-- Zero-padded two-digit rendering used by strftime `%d`, `%m`, `%H`, `%M`. -/
def pad2 (n : Nat) : String :=
  (if n < 10 then "0" else "") ++ toString n

/-- Window-span string built at line 30-32:
`start.strftime('%d/%m %H:%M') + "-" + end.strftime('%H:%M')`. -/
def fmtWindow (tmin tmax : PyDateTime) : String :=
  pad2 tmin.day ++ "/" ++ pad2 tmin.month ++ " " ++ pad2 tmin.hour ++ ":" ++
    pad2 tmin.minute ++ "-" ++ pad2 tmax.hour ++ ":" ++ pad2 tmax.minute

/-- Python `round` to an integer: half-to-even (banker's rounding), on ℚ. -/
def pyRoundEven (q : ℚ) : ℤ :=
  let n := ⌊q⌋
  if q - n < 1/2 then n
  else if 1/2 < q - n then n + 1
  else if n % 2 = 0 then n else n + 1

/-- Python `round(x, 1)`: banker's rounding at one decimal, on ℚ. -/
def pyRound1 (q : ℚ) : ℚ := (pyRoundEven (q * 10) : ℚ) / 10

/-- Result triple of a successful window detection. -/
structure WindowResult where
  window : String
  avg_speed : ℚ
  mean_dir : ℝ

/-- Embedding of `is_valid_window` (src/forecast_parser.py lines 23-33).
The `(None, None, None)` tuple of the source is `none`.  The empty-subset
branch under `MIN_BLOCK_LENGTH = 0` is the case where pandas would raise on
`NaT.strftime` (an error the caller catches); it is likewise `none` here. -/
noncomputable def is_valid_window (df : List Obs) (config : Config) : Option WindowResult :=
  let f := filter_window df config
  if config.MIN_BLOCK_LENGTH ≤ f.length then
    match f with
    | [] => none
    | o :: rest =>
      let tmin := listMinDT o.datetime (rest.map (·.datetime))
      let tmax := listMaxDT o.datetime (rest.map (·.datetime))
      let avg_speed := ((o :: rest).map (·.wind_speed)).sum / ((o :: rest).length : ℚ)
      some ⟨fmtWindow tmin tmax, pyRound1 avg_speed,
            circular_mean (((o :: rest).map (·.wind_dir)).map (fun q => (q : ℝ)))⟩
  else none

/-! ### Summary Ranker: window-string extraction and duration

The ranker re-parses each window string with
`str.extract(r'(\d{2}/\d{2}) (\d{2}):(\d{2})-(\d{2}):(\d{2})')` and
`pd.to_datetime(..., format="%d/%m %H:%M", errors='coerce')` (lines 114-124).
`to_datetime` with that format defaults the year to 1900; a failed extraction
or coercion yields NaN/NaT, modelled as `none`.  Timestamps here are modelled
by their minute count since 1900-01-01 00:00, which `pd.Timestamp`
comparison, `+ pd.to_timedelta(1, unit='d')` and subtraction all respect. -/

/-- Two-digit group value (`\d{2}` digits to a number). -/
def dv (a b : Char) : Nat := 10 * (a.toNat - 48) + (b.toNat - 48)

/-- Attempt to match the regex
`(\d{2}/\d{2}) (\d{2}):(\d{2})-(\d{2}):(\d{2})` at the head of the
character list; on success return the numeric values of
(day, month, start hour, start minute, end hour, end minute). -/
def matchWindowAt (cs : List Char) : Option (Nat × Nat × Nat × Nat × Nat × Nat) :=
  match cs with
  | a :: b :: c :: d :: e :: f :: g :: h :: i :: j :: k :: l :: m :: n :: o :: p :: q :: _ =>
    if a.isDigit && b.isDigit && c == '/' && d.isDigit && e.isDigit && f == ' ' &&
       g.isDigit && h.isDigit && i == ':' && j.isDigit && k.isDigit && l == '-' &&
       m.isDigit && n.isDigit && o == ':' && p.isDigit && q.isDigit then
      some (dv a b, dv d e, dv g h, dv j k, dv m n, dv p q)
    else none
  | _ => none

/-- `re.search` for the window pattern: leftmost match. -/
def searchWindow : List Char → Option (Nat × Nat × Nat × Nat × Nat × Nat)
  | [] => none
  | c :: rest =>
    match matchWindowAt (c :: rest) with
    | some r => some r
    | none => searchWindow rest

/-- `pd.to_datetime("dd/mm HH:MM", format="%d/%m %H:%M", errors='coerce')`:
the year defaults to 1900, invalid calendar values coerce to NaT (`none`). -/
def toDatetime1900 (d m h mi : Nat) : Option PyDateTime :=
  if 1 ≤ m ∧ m ≤ 12 ∧ 1 ≤ d ∧ d ≤ daysInMonth 1900 m ∧ h ≤ 23 ∧ mi ≤ 59 then
    some ⟨1900, m, d, h, mi⟩
  else none

/-- Days of year 1900 before the start of month `m` (1900 is not a leap
year: divisible by 100 but not by 400). -/
def cumDays1900 (m : Nat) : Nat :=
  match m with
  | 1 => 0 | 2 => 31 | 3 => 59 | 4 => 90 | 5 => 120 | 6 => 151
  | 7 => 181 | 8 => 212 | 9 => 243 | 10 => 273 | 11 => 304 | 12 => 334
  | _ => 365

/-- Minutes since 1900-01-01 00:00 of a (year-1900) timestamp. -/
def serialMinutes (t : PyDateTime) : Int :=
  ((cumDays1900 t.month + (t.day - 1)) * 1440 + t.hour * 60 + t.minute : Nat)

/-- Reconstructed `Start` timestamp of one summary row, as serial minutes. -/
def windowStartMin (w : String) : Option Int :=
  match searchWindow w.data with
  | none => none
  | some (d, m, sh, sm, _, _) => (toDatetime1900 d m sh sm).map serialMinutes

/-- Reconstructed `End` timestamp before the overnight correction. -/
def windowEndMinRaw (w : String) : Option Int :=
  match searchWindow w.data with
  | none => none
  | some (d, m, _, _, eh, em) => (toDatetime1900 d m eh em).map serialMinutes

/-- Overnight correction (line 122): `End < Start` adds one day to `End`;
comparisons against NaT are false, so NaT rows are left unchanged. -/
def adjustedEnd (w : String) : Option Int :=
  match windowStartMin w, windowEndMinRaw w with
  | some s, some e => some (if e < s then e + 1440 else e)
  | _, e => e

/-- Duration column (line 124): `(End - Start).dt.total_seconds() / 3600`;
NaT in either operand propagates to NaN. -/
def windowDuration (w : String) : Option ℚ :=
  match windowStartMin w, adjustedEnd w with
  | some s, some e => some (((e : ℚ) - (s : ℚ)) / 60)
  | _, _ => none

/-! ### Summary Ranker: normalization, score, sort -/

/-- One collected block (lines 101-106): the dict appended per
qualifying site, with `Dir = round(dir_mean)`. -/
structure Block where
  Site : String
  Window : String
  Avg : ℚ
  Dir : ℤ

/-- One row of the final summary frame. -/
structure SummaryRow where
  Site : String
  Window : String
  Avg : ℚ
  Dir : ℤ
  Start : Option Int
  End : Option Int
  Duration : Option ℚ
  Norm_Wind : Option ℚ
  Norm_Duration : Option ℚ
  Score : Option ℚ

/-- Column minimum with pandas `skipna` semantics: NaN entries are ignored;
an all-NaN (or empty) column has NaN as its minimum. -/
def colMin (xs : List (Option ℚ)) : Option ℚ :=
  match xs.filterMap id with
  | [] => none
  | y :: ys => some (ys.foldl min y)

/-- Column maximum, `skipna` semantics. -/
def colMax (xs : List (Option ℚ)) : Option ℚ :=
  match xs.filterMap id with
  | [] => none
  | y :: ys => some (ys.foldl max y)

/-- Min-max normalization of one cell (lines 127-128):
`(x - min) / (max - min)`.  A NaN cell or NaN column extremum stays NaN, and
a zero range makes the cell `0/0`, i.e. NaN — there is no error path. -/
def normCell (mn mx : Option ℚ) (x : Option ℚ) : Option ℚ :=
  match x, mn, mx with
  | some v, some a, some b => if b - a = 0 then none else some ((v - a) / (b - a))
  | _, _, _ => none

/-- Weighted score (lines 131-133); NaN in either operand propagates. -/
def scoreCell (config : Config) (nw nd : Option ℚ) : Option ℚ :=
  match nw, nd with
  | some a, some b =>
      some (config.WIND_WEIGHT.getD (6/10) * a + config.DURATION_WEIGHT.getD (4/10) * b)
  | _, _ => none

/-- The summary frame before sorting: one row per block, with the derived
Start/End/Duration and the cross-site normalized columns and score. -/
def summaryRows (blocks : List Block) (config : Config) : List SummaryRow :=
  let durations := blocks.map (fun b => windowDuration b.Window)
  let mnW := colMin (blocks.map (fun b => some b.Avg))
  let mxW := colMax (blocks.map (fun b => some b.Avg))
  let mnD := colMin durations
  let mxD := colMax durations
  blocks.map (fun b =>
    let nw := normCell mnW mxW (some b.Avg)
    let nd := normCell mnD mxD (windowDuration b.Window)
    { Site := b.Site, Window := b.Window, Avg := b.Avg, Dir := b.Dir,
      Start := windowStartMin b.Window, End := adjustedEnd b.Window,
      Duration := windowDuration b.Window,
      Norm_Wind := nw, Norm_Duration := nd,
      Score := scoreCell config nw nd })

/-- Sort key for `sort_values(by="Score", ascending=False)`: NaN sorts last
(`na_position='last'`), modelled as the bottom of `WithBot ℚ`. -/
def scoreKey (s : Option ℚ) : WithBot ℚ :=
  match s with
  | none => ⊥
  | some x => (x : WithBot ℚ)

/-- Row order produced by the final sort: score descending, NaN last. -/
def rowLe (a b : SummaryRow) : Prop := scoreKey b.Score ≤ scoreKey a.Score

instance : DecidableRel rowLe := fun a b =>
  inferInstanceAs (Decidable (scoreKey b.Score ≤ scoreKey a.Score))

instance : IsTotal SummaryRow rowLe :=
  ⟨fun a b => le_total (scoreKey b.Score) (scoreKey a.Score)⟩

instance : IsTrans SummaryRow rowLe :=
  ⟨fun _ _ _ hab hbc => le_trans hbc hab⟩

/-- Embedding of the ranking tail of `process_forecasts` (lines 110-135):
empty input returns the empty frame; otherwise rows are derived and sorted by
score descending.  Pandas' quicksort has implementation-defined tie order; it
is observed stable (numpy insertion sort for short arrays) and is modelled by
a stable insertion sort — note the sort key is the score alone. -/
def rank_summary (blocks : List Block) (config : Config) : List SummaryRow :=
  match blocks with
  | [] => []
  | _ => List.insertionSort rowLe (summaryRows blocks config)

/-! ### Site Pipeline (`process_forecasts`, collection phase, lines 84-108) -/

/-- One raw CSV data row after `pd.read_csv(..., skiprows=2, names=...)` and
`pd.to_numeric(..., errors='coerce')`: the timestamp token as read, and the
three measurements with `none` for values that failed numeric coercion. -/
structure RawRow where
  datetime_raw : String
  wind_speed : Option ℚ
  wind_dir : Option ℚ
  wind_gust : Option ℚ

/-- Row cleaning (lines 92-95): parse the timestamp, drop rows whose
timestamp failed (`dropna(subset=["datetime"])`), then drop rows with any
non-numeric measurement (`dropna()`). -/
def cleanRows (year month : Nat) (rows : List RawRow) : List Obs :=
  rows.filterMap (fun r =>
    match parse_datetime year month r.datetime_raw, r.wind_speed, r.wind_dir, r.wind_gust with
    | some dt, some s, some d, some g => some ⟨dt, s, d, g⟩
    | _, _, _, _ => none)

/-- Python `round` to integer on an (idealised float) real: half-to-even. -/
noncomputable def pyRoundEvenR (x : ℝ) : ℤ :=
  let n := ⌊x⌋
  if x - n < 1/2 then n
  else if 1/2 < x - n then n + 1
  else if n % 2 = 0 then n else n + 1

/-- `os.path.splitext(file)[0]`: drop the last extension; dots that are part
of a leading run of dots do not start an extension. -/
def splitextStem (s : String) : String :=
  let cs := s.data
  let lead := (cs.takeWhile (· = '.')).length
  match ((cs.enum.filter (fun p => p.2 = '.')).map (·.1)).getLast? with
  | none => s
  | some i => if lead ≤ i then ⟨cs.take i⟩ else s

/-- Per-file body of the loop (lines 91-106), after the file's rows have
been read: clean the rows, run the Window Detector, and on success produce
the summary block for the site (plot rendering is outside the core). -/
noncomputable def processFile (year month : Nat) (config : Config) (site : String)
    (rows : List RawRow) : Option Block :=
  match is_valid_window (cleanRows year month rows) config with
  | some r => some ⟨site, r.window, r.avg_speed, pyRoundEvenR r.mean_dir⟩
  | none => none

/-- Log line printed by the `except` branch (line 108). -/
def errorLog (file e : String) : String := "Error in " ++ file ++ ": " ++ e

/-- Python `s.endswith(suffix)`. -/
def pyEndsWith (s suffix : String) : Bool := List.isSuffixOf suffix.data s.data

/-- Collection loop of `process_forecasts` (lines 85-108).  File discovery
and reading are I/O: the input is the discovered file list, each file name
paired with either its parsed rows or the error raised while reading or
parsing it.  Non-`.csv` files are skipped without being read; a failing file
contributes one log line and no block; the loop never aborts. -/
noncomputable def processSites (year month : Nat) (config : Config) :
    List (String × Except String (List RawRow)) → List Block × List String
  | [] => ([], [])
  | (file, content) :: rest =>
    let acc := processSites year month config rest
    if pyEndsWith file ".csv" then
      match content with
      | .error e => (acc.1, errorLog file e :: acc.2)
      | .ok rows =>
        match processFile year month config (splitextStem file) rows with
        | some b => (b :: acc.1, acc.2)
        | none => acc
    else acc

/-- Whole `process_forecasts`: collect blocks per site, then rank.  Returns
the summary rows and the error log. -/
noncomputable def process_forecasts (year month : Nat) (config : Config)
    (files : List (String × Except String (List RawRow))) :
    List SummaryRow × List String :=
  let acc := processSites year month config files
  (rank_summary acc.1 config, acc.2)

/-! ## Claims -/

/-- Python float `%` with modulus 360 lands in `[0, 360)`. -/
theorem pyMod_360_mem (a : ℝ) : pyMod a 360 ∈ Set.Ico (0:ℝ) 360 := by
  unfold pyMod
  have hfr : Int.fract (a / 360) = a / 360 - ⌊a / 360⌋ := rfl
  have hf : a - 360 * ⌊a / 360⌋ = 360 * Int.fract (a / 360) := by
    rw [hfr]; ring
  rw [hf]
  have h0 := Int.fract_nonneg (a / 360)
  have h1 := Int.fract_lt_one (a / 360)
  constructor <;> nlinarith

/-- `arctan2 0 c = 0` when `c > 0`. -/
theorem arctan2_zero_pos {c : ℝ} (hc : 0 < c) : arctan2 0 c = 0 := by
  unfold arctan2
  rw [if_pos hc, zero_div, Real.arctan_zero]

/-- C1: for every sequence of direction values, `circular_mean` converts each
value to radians, sums the sine and cosine components, takes
`atan2(sum_sin, sum_cos)`, converts back to degrees, and reduces
`(angle + 360) % 360`, so the result lies in `[0, 360)`; in particular the
circular mean of `[350, 10]` degrees is exactly `0`, not `180`. -/
theorem claim_C1_circular_mean :
    (∀ degrees : List ℝ, circular_mean degrees ∈ Set.Ico (0:ℝ) 360) ∧
    circular_mean [350, 10] = 0 := by
  constructor
  · intro degrees
    unfold circular_mean
    exact pyMod_360_mem _
  · unfold circular_mean
    simp only [List.map_cons, List.map_nil, List.sum_cons, List.sum_nil]
    have h350 : deg2rad 350 = 2 * Real.pi - 10 * (Real.pi / 180) := by
      unfold deg2rad; ring
    have h10 : deg2rad 10 = 10 * (Real.pi / 180) := rfl
    rw [h350, h10, Real.sin_two_pi_sub, Real.cos_two_pi_sub]
    have hsin : -Real.sin (10 * (Real.pi / 180)) + (Real.sin (10 * (Real.pi / 180)) + 0) = 0 := by
      ring
    have hcospos :
        0 < Real.cos (10 * (Real.pi / 180)) + (Real.cos (10 * (Real.pi / 180)) + 0) := by
      have hp := Real.pi_pos
      have : 0 < Real.cos (10 * (Real.pi / 180)) := by
        apply Real.cos_pos_of_mem_Ioo
        constructor <;> [linarith; linarith]
      linarith
    rw [hsin, arctan2_zero_pos hcospos]
    have hrd : rad2deg 0 = 0 := by unfold rad2deg; ring
    rw [hrd]
    unfold pyMod
    norm_num

/-- C3: the claim says `circular_mean` of an empty sequence fails with an
explicit error; the code instead returns the number `0.0`: the empty numpy
sums are `0`, `arctan2 0 0 = 0`, and `(0 + 360) % 360 = 0`.  There is no
error path in the function. -/
theorem claim_C3_empty_circular_mean_returns_zero : circular_mean [] = 0 := by
  unfold circular_mean
  simp only [List.map_nil, List.sum_nil]
  have ha : arctan2 0 0 = 0 := by unfold arctan2; norm_num
  rw [ha]
  have hrd : rad2deg 0 = 0 := by unfold rad2deg; ring
  rw [hrd]
  unfold pyMod
  norm_num

/-- Every month has at most 31 days. -/
theorem daysInMonth_le_31 (y m : Nat) : daysInMonth y m ≤ 31 := by
  unfold daysInMonth
  split <;> first | omega | (split <;> omega)

/-- C4 (counterexample): the claim says every malformed token — wrong
length, non-digit characters, hour > 23, day > 31 — yields `None`.  The
parser only inspects positions 2-4, 5-7 (and 7-9 at length 9): the
length-8 all-digit token `"05072030"` parses to a timestamp (the hour is
read from positions 5-7 as `03`), and `"ab07.1200"`, which contains
non-digit characters, parses as well. -/
theorem claim_C4_counterexample :
    parse_datetime 2025 5 "05072030" = some ⟨2025, 5, 7, 3, 0⟩ ∧
    "05072030".length = 8 ∧
    parse_datetime 2025 5 "ab07.1200" = some ⟨2025, 5, 7, 12, 0⟩ := by
  decide

/-- C4 (amended): `parse_datetime` is total into `Option` (the bare
`except` returns `None` on any raised error, so it never raises), and it
returns `None` whenever the day substring (positions 2-4) or the hour
substring (positions 5-7) fails integer parsing, or the parsed hour exceeds
23, or the parsed day exceeds 31.  Tokens of unexpected length, or with
non-digit characters outside the inspected positions, may still parse. -/
theorem claim_C4_parse_datetime_failures (year month : Nat) (val : String) :
    (pyInt (pySlice val 2 4) = none → parse_datetime year month val = none) ∧
    (pyInt (pySlice val 5 7) = none → parse_datetime year month val = none) ∧
    (∀ h : Int, pyInt (pySlice val 5 7) = some h → 23 < h →
      parse_datetime year month val = none) ∧
    (∀ d : Int, pyInt (pySlice val 2 4) = some d → 31 < d →
      parse_datetime year month val = none) := by
  refine ⟨fun h1 => ?_, fun h2 => ?_, fun h hh hlt => ?_, fun d hd hlt => ?_⟩
  · unfold parse_datetime; rw [h1]
  · unfold parse_datetime
    rw [h2]
    cases pyInt (pySlice val 2 4) <;> rfl
  · unfold parse_datetime
    rw [hh]
    cases pyInt (pySlice val 2 4) with
    | none => rfl
    | some d =>
      cases hmi : (if val.length = 9 then pyInt (pySlice val 7 9) else some 0) with
      | none => rfl
      | some mi =>
        dsimp only
        unfold mkDatetime
        rw [if_neg]
        intro hc
        omega
  · unfold parse_datetime
    rw [hd]
    cases hh : pyInt (pySlice val 5 7) with
    | none => rfl
    | some h =>
      cases hmi : (if val.length = 9 then pyInt (pySlice val 7 9) else some 0) with
      | none => rfl
      | some mi =>
        dsimp only
        unfold mkDatetime
        rw [if_neg]
        intro hc
        have h31 := daysInMonth_le_31 year month
        omega

/-- C4 witness: concrete malformed tokens of each rejected class map to
`None` through the amended theorem. -/
theorem claim_C4_parse_datetime_failures_witness :
    parse_datetime 2025 5 "05" = none ∧
    parse_datetime 2025 5 "0507.2500" = none ∧
    parse_datetime 2025 5 "0535.1200" = none :=
  ⟨(claim_C4_parse_datetime_failures 2025 5 "05").1 (by decide),
   (claim_C4_parse_datetime_failures 2025 5 "0507.2500").2.2.1 25 (by decide) (by decide),
   (claim_C4_parse_datetime_failures 2025 5 "0535.1200").2.2.2 35 (by decide) (by decide)⟩

/-- Concrete configuration used by witnesses: the values of `config.py`. -/
def cfgEx : Config :=
  { DAY_START_HOUR := 6, DAY_END_HOUR := 20, MIN_WIND_KNOTS := 15, MIN_BLOCK_LENGTH := 2 }

/-- C5: with a positive `MIN_BLOCK_LENGTH`, a series whose daytime-and-speed
qualifying subset has exactly `MIN_BLOCK_LENGTH - 1` observations yields
`None` from the Window Detector, and exactly `MIN_BLOCK_LENGTH` qualifying
observations yield a `Some` result. -/
theorem claim_C5_min_block_boundary (df : List Obs) (config : Config)
    (hpos : 0 < config.MIN_BLOCK_LENGTH) :
    ((filter_window df config).length = config.MIN_BLOCK_LENGTH - 1 →
      is_valid_window df config = none) ∧
    ((filter_window df config).length = config.MIN_BLOCK_LENGTH →
      (is_valid_window df config).isSome = true) := by
  constructor
  · intro hlen
    unfold is_valid_window
    dsimp only
    rw [if_neg (by omega)]
  · intro hlen
    unfold is_valid_window
    dsimp only
    rw [if_pos (by omega)]
    cases hf : filter_window df config with
    | nil => rw [hf] at hlen; simp at hlen; omega
    | cons o rest => rfl

/-- C5 witness: with the repository configuration (`MIN_BLOCK_LENGTH = 2`),
one qualifying observation gives `None` and two give `Some`. -/
theorem claim_C5_min_block_boundary_witness :
    is_valid_window [⟨⟨2025, 5, 7, 10, 0⟩, 20, 90, 25⟩] cfgEx = none ∧
    (is_valid_window
      [⟨⟨2025, 5, 7, 10, 0⟩, 20, 90, 25⟩, ⟨⟨2025, 5, 7, 12, 0⟩, 18, 100, 22⟩]
      cfgEx).isSome = true :=
  ⟨(claim_C5_min_block_boundary [⟨⟨2025, 5, 7, 10, 0⟩, 20, 90, 25⟩] cfgEx
      (by decide)).1 (by decide),
   (claim_C5_min_block_boundary
      [⟨⟨2025, 5, 7, 10, 0⟩, 20, 90, 25⟩, ⟨⟨2025, 5, 7, 12, 0⟩, 18, 100, 22⟩] cfgEx
      (by decide)).2 (by decide)⟩

/-- C6: the daytime restriction is inclusive of both bounds — an observation
whose time-of-day is exactly `DAY_END_HOUR:00` (and which passes the speed
filter) is in the qualifying subset, and any observation at
`DAY_END_HOUR:01`, one minute later, is excluded. -/
theorem claim_C6_day_bound_inclusive (df : List Obs) (config : Config) (o : Obs)
    (hmem : o ∈ df) (hhr : o.datetime.hour = config.DAY_END_HOUR)
    (hmin : o.datetime.minute = 0) (hspd : config.MIN_WIND_KNOTS ≤ o.wind_speed) :
    o ∈ filter_window df config ∧
    ∀ o2 : Obs, o2.datetime.hour = config.DAY_END_HOUR → o2.datetime.minute = 1 →
      o2 ∉ filter_window df config := by
  constructor
  · unfold filter_window
    rw [List.mem_filter, List.mem_filter]
    refine ⟨⟨hmem, ?_⟩, by simpa using hspd⟩
    unfold betweenTime timeOfDay
    rw [hhr, hmin]
    split <;> simp only [decide_eq_true_eq] <;> omega
  · intro o2 h2hr h2min hmem2
    unfold filter_window at hmem2
    rw [List.mem_filter, List.mem_filter] at hmem2
    obtain ⟨⟨_, hbt⟩, _⟩ := hmem2
    unfold betweenTime timeOfDay at hbt
    rw [h2hr, h2min] at hbt
    split at hbt <;> simp only [decide_eq_true_eq] at hbt <;> omega

/-- C6 witness: with `DAY_END_HOUR = 20`, a 20:00 observation is kept and a
20:01 observation is dropped. -/
theorem claim_C6_day_bound_inclusive_witness :
    (⟨⟨2025, 5, 7, 20, 0⟩, 20, 90, 25⟩ : Obs) ∈
      filter_window
        [⟨⟨2025, 5, 7, 20, 0⟩, 20, 90, 25⟩, ⟨⟨2025, 5, 7, 20, 1⟩, 20, 90, 25⟩] cfgEx ∧
    (⟨⟨2025, 5, 7, 20, 1⟩, 20, 90, 25⟩ : Obs) ∉
      filter_window
        [⟨⟨2025, 5, 7, 20, 0⟩, 20, 90, 25⟩, ⟨⟨2025, 5, 7, 20, 1⟩, 20, 90, 25⟩] cfgEx :=
  ⟨(claim_C6_day_bound_inclusive
      [⟨⟨2025, 5, 7, 20, 0⟩, 20, 90, 25⟩, ⟨⟨2025, 5, 7, 20, 1⟩, 20, 90, 25⟩] cfgEx
      ⟨⟨2025, 5, 7, 20, 0⟩, 20, 90, 25⟩ (by decide) rfl rfl (by decide)).1,
   (claim_C6_day_bound_inclusive
      [⟨⟨2025, 5, 7, 20, 0⟩, 20, 90, 25⟩, ⟨⟨2025, 5, 7, 20, 1⟩, 20, 90, 25⟩] cfgEx
      ⟨⟨2025, 5, 7, 20, 0⟩, 20, 90, 25⟩ (by decide) rfl rfl (by decide)).2
      ⟨⟨2025, 5, 7, 20, 1⟩, 20, 90, 25⟩ rfl rfl⟩

/-- Inversion for `toDatetime1900`: a successful parse pins the timestamp's
fields and bounds its hour and minute. -/
theorem toDatetime1900_inv (d m h mi : Nat) (st : PyDateTime)
    (hp : toDatetime1900 d m h mi = some st) :
    st = ⟨1900, m, d, h, mi⟩ ∧ h ≤ 23 ∧ mi ≤ 59 := by
  unfold toDatetime1900 at hp
  split at hp
  · rename_i hc
    injection hp with hp
    exact ⟨hp.symm, hc.2.2.2.2.1, hc.2.2.2.2.2⟩
  · cases hp

/-- After the overnight correction the end timestamp is at or after the
start: both were reconstructed on the same day/month, the start time-of-day
is below 24 hours, and a wrapped end gains a full day. -/
theorem start_le_adjustedEnd (w : String) (s e : Int)
    (hs : windowStartMin w = some s) (he : adjustedEnd w = some e) : s ≤ e := by
  unfold adjustedEnd at he
  rw [hs] at he
  cases hr : windowEndMinRaw w with
  | none => rw [hr] at he; cases he
  | some e0 =>
    rw [hr] at he
    dsimp only at he
    injection he with he
    unfold windowStartMin at hs
    unfold windowEndMinRaw at hr
    cases hsw : searchWindow w.data with
    | none => rw [hsw] at hs; cases hs
    | some g =>
      obtain ⟨d, m, sh, sm, eh, em⟩ := g
      rw [hsw] at hs hr
      dsimp only at hs hr
      cases hst : toDatetime1900 d m sh sm with
      | none => rw [hst] at hs; cases hs
      | some st =>
        cases hen : toDatetime1900 d m eh em with
        | none => rw [hen] at hr; cases hr
        | some en =>
          rw [hst] at hs
          rw [hen] at hr
          rw [Option.map_some'] at hs hr
          injection hs with hs
          injection hr with hr
          obtain ⟨hsteq, hsh, hsm⟩ := toDatetime1900_inv _ _ _ _ _ hst
          obtain ⟨heneq, heh, hem⟩ := toDatetime1900_inv _ _ _ _ _ hen
          subst hsteq heneq hs hr he
          unfold serialMinutes
          dsimp only
          split <;> omega

/-- C7: whenever the reconstructed end timestamp is earlier than the start,
24 hours are added to the end before the duration is computed, so a defined
duration is never negative; the window string `"07/05 23:00-01:30"` yields a
duration of exactly 2.5 hours. -/
theorem claim_C7_overnight_correction :
    (∀ (w : String) (q : ℚ), windowDuration w = some q → 0 ≤ q) ∧
    windowDuration "07/05 23:00-01:30" = some (5/2) := by
  constructor
  · intro w q hq
    unfold windowDuration at hq
    cases hs : windowStartMin w with
    | none => rw [hs] at hq; cases hq
    | some s =>
      cases he : adjustedEnd w with
      | none => rw [hs, he] at hq; cases hq
      | some e =>
        rw [hs, he] at hq
        dsimp only at hq
        injection hq with hq
        subst hq
        have hse := start_le_adjustedEnd w s e hs he
        apply div_nonneg _ (by norm_num)
        rw [sub_nonneg]
        exact_mod_cast hse
  · have hs : windowStartMin "07/05 23:00-01:30" = some 182820 := rfl
    have he : adjustedEnd "07/05 23:00-01:30" = some 182970 := rfl
    unfold windowDuration
    rw [hs, he]
    norm_num

/-- C7 witness: the overnight window string has a defined duration, and the
general theorem instantiated there confirms it is non-negative. -/
theorem claim_C7_overnight_correction_witness : (0 : ℚ) ≤ 5/2 :=
  claim_C7_overnight_correction.1 "07/05 23:00-01:30" (5/2)
    claim_C7_overnight_correction.2

/-- Sorting does not change the number of summary rows. -/
theorem rank_summary_length (blocks : List Block) (config : Config) :
    (rank_summary blocks config).length = (summaryRows blocks config).length := by
  unfold rank_summary
  cases blocks with
  | nil => rfl
  | cons b bs => exact (List.perm_insertionSort rowLe _).length_eq

/-- C2: the claim says a zero normalization range makes the Summary Ranker
fail with an explicit error.  The code has no error path: with two entries of
equal average speed the wind column's `max - min` is zero, `(x - min)/0` is
the NaN of `0/0`, and the NaN scores are returned in a full two-row summary
— NaN propagates silently into the final score. -/
theorem claim_C2_zero_range_nan_scores :
    ((summaryRows
        [⟨"X", "07/05 10:00-12:00", 15, 90⟩, ⟨"Y", "07/05 08:00-12:00", 15, 180⟩]
        cfgEx).map SummaryRow.Score = [none, none]) ∧
    (rank_summary
        [⟨"X", "07/05 10:00-12:00", 15, 90⟩, ⟨"Y", "07/05 08:00-12:00", 15, 180⟩]
        cfgEx).length = 2 := by
  have hd1 : windowDuration "07/05 10:00-12:00" = some 2 := by
    have hs : windowStartMin "07/05 10:00-12:00" = some 182040 := rfl
    have he : adjustedEnd "07/05 10:00-12:00" = some 182160 := rfl
    unfold windowDuration
    rw [hs, he]
    norm_num
  have hd2 : windowDuration "07/05 08:00-12:00" = some 4 := by
    have hs : windowStartMin "07/05 08:00-12:00" = some 181920 := rfl
    have he : adjustedEnd "07/05 08:00-12:00" = some 182160 := rfl
    unfold windowDuration
    rw [hs, he]
    norm_num
  have hmnW : colMin [some (15:ℚ), some 15] = some 15 := by
    simp [colMin, List.filterMap]
  have hmxW : colMax [some (15:ℚ), some 15] = some 15 := by
    simp [colMax, List.filterMap]
  have hmnD : colMin [some (2:ℚ), some 4] = some 2 := by
    simp [colMin, List.filterMap]
    norm_num [min_def]
  have hmxD : colMax [some (2:ℚ), some 4] = some 4 := by
    simp [colMax, List.filterMap]
    norm_num [max_def]
  have hnW : normCell (some 15) (some 15) (some (15:ℚ)) = none := by
    unfold normCell
    norm_num
  have hnD1 : normCell (some 2) (some 4) (some (2:ℚ)) = some 0 := by
    unfold normCell
    norm_num
  have hnD2 : normCell (some 2) (some 4) (some (4:ℚ)) = some 1 := by
    unfold normCell
    norm_num
  constructor
  · unfold summaryRows
    dsimp only
    simp only [List.map_cons, List.map_nil]
    rw [hd1, hd2, hmnW, hmxW, hmnD, hmxD, hnW, hnD1, hnD2]
    rfl
  · rw [rank_summary_length]
    unfold summaryRows
    dsimp only
    simp only [List.map_cons, List.map_nil]
    rfl

/-- C8 (amended): the Run Summary is sorted by score descending (undefined
scores last) and is a permutation of the derived summary rows; the sort key
is the score alone, so equal-score entries keep their input order — there is
no site-name tie-break. -/
theorem claim_C8_sorted_by_score (blocks : List Block) (config : Config) :
    (rank_summary blocks config).Sorted rowLe ∧
    (rank_summary blocks config).Perm (summaryRows blocks config) := by
  unfold rank_summary
  cases blocks with
  | nil => exact ⟨List.sorted_nil, by simp [summaryRows]⟩
  | cons b bs => exact ⟨List.sorted_insertionSort rowLe _, List.perm_insertionSort rowLe _⟩

/-- Configuration with equal weights, used to build an equal-score tie. -/
def cfgHalf : Config :=
  { DAY_START_HOUR := 6, DAY_END_HOUR := 20, MIN_WIND_KNOTS := 15, MIN_BLOCK_LENGTH := 2,
    WIND_WEIGHT := some (1/2), DURATION_WEIGHT := some (1/2) }

/-- C8 (counterexample): the claim says equal scores are tie-broken on site
name.  Two entries with equal scores `1/2`, fed in the order `"B"`, `"A"`,
come out in the order `"B"`, `"A"` — the input order, not the site-name
order — because the sort consults nothing but the score. -/
theorem claim_C8_counterexample :
    (rank_summary
      [⟨"B", "07/05 10:00-12:00", 20, 90⟩, ⟨"A", "07/05 08:00-12:00", 10, 180⟩]
      cfgHalf).map SummaryRow.Site = ["B", "A"] ∧
    (rank_summary
      [⟨"B", "07/05 10:00-12:00", 20, 90⟩, ⟨"A", "07/05 08:00-12:00", 10, 180⟩]
      cfgHalf).map SummaryRow.Score = [some (1/2), some (1/2)] := by
  have hd1 : windowDuration "07/05 10:00-12:00" = some 2 := by
    have hs : windowStartMin "07/05 10:00-12:00" = some 182040 := rfl
    have he : adjustedEnd "07/05 10:00-12:00" = some 182160 := rfl
    unfold windowDuration
    rw [hs, he]
    norm_num
  have hd2 : windowDuration "07/05 08:00-12:00" = some 4 := by
    have hs : windowStartMin "07/05 08:00-12:00" = some 181920 := rfl
    have he : adjustedEnd "07/05 08:00-12:00" = some 182160 := rfl
    unfold windowDuration
    rw [hs, he]
    norm_num
  have hs1 : windowStartMin "07/05 10:00-12:00" = some 182040 := rfl
  have he1 : adjustedEnd "07/05 10:00-12:00" = some 182160 := rfl
  have hs2 : windowStartMin "07/05 08:00-12:00" = some 181920 := rfl
  have he2 : adjustedEnd "07/05 08:00-12:00" = some 182160 := rfl
  have hmnW : colMin [some (20:ℚ), some 10] = some 10 := by
    simp [colMin, List.filterMap]
    norm_num [min_def]
  have hmxW : colMax [some (20:ℚ), some 10] = some 20 := by
    simp [colMax, List.filterMap]
    norm_num [max_def]
  have hmnD : colMin [some (2:ℚ), some 4] = some 2 := by
    simp [colMin, List.filterMap]
    norm_num [min_def]
  have hmxD : colMax [some (2:ℚ), some 4] = some 4 := by
    simp [colMax, List.filterMap]
    norm_num [max_def]
  have hnW1 : normCell (some 10) (some 20) (some (20:ℚ)) = some 1 := by
    unfold normCell
    norm_num
  have hnW2 : normCell (some 10) (some 20) (some (10:ℚ)) = some 0 := by
    unfold normCell
    norm_num
  have hnD1 : normCell (some 2) (some 4) (some (2:ℚ)) = some 0 := by
    unfold normCell
    norm_num
  have hnD2 : normCell (some 2) (some 4) (some (4:ℚ)) = some 1 := by
    unfold normCell
    norm_num
  have hsc1 : scoreCell cfgHalf (some 1) (some 0) = some (1/2) := by
    unfold scoreCell
    norm_num [cfgHalf]
  have hsc2 : scoreCell cfgHalf (some 0) (some 1) = some (1/2) := by
    unfold scoreCell
    norm_num [cfgHalf]
  have hrows : summaryRows
      [⟨"B", "07/05 10:00-12:00", 20, 90⟩, ⟨"A", "07/05 08:00-12:00", 10, 180⟩] cfgHalf =
      [⟨"B", "07/05 10:00-12:00", 20, 90, some 182040, some 182160, some 2,
         some 1, some 0, some (1/2)⟩,
       ⟨"A", "07/05 08:00-12:00", 10, 180, some 181920, some 182160, some 4,
         some 0, some 1, some (1/2)⟩] := by
    unfold summaryRows
    dsimp only
    simp only [List.map_cons, List.map_nil]
    rw [hd1, hd2, hmnW, hmxW, hmnD, hmxD, hnW1, hnW2, hnD1, hnD2, hsc1, hsc2,
      hs1, he1, hs2, he2]
  have hsorted : rank_summary
      [⟨"B", "07/05 10:00-12:00", 20, 90⟩, ⟨"A", "07/05 08:00-12:00", 10, 180⟩] cfgHalf =
      [⟨"B", "07/05 10:00-12:00", 20, 90, some 182040, some 182160, some 2,
         some 1, some 0, some (1/2)⟩,
       ⟨"A", "07/05 08:00-12:00", 10, 180, some 181920, some 182160, some 4,
         some 0, some 1, some (1/2)⟩] := by
    unfold rank_summary
    dsimp only
    rw [hrows]
    simp [List.insertionSort, List.orderedInsert, rowLe, scoreKey]
  rw [hsorted]
  exact ⟨rfl, rfl⟩

/-- The collection loop distributes over list concatenation: each file's
contribution to blocks and log is independent of the other files. -/
theorem processSites_append (y m : Nat) (config : Config)
    (l1 l2 : List (String × Except String (List RawRow))) :
    processSites y m config (l1 ++ l2) =
      ((processSites y m config l1).1 ++ (processSites y m config l2).1,
       (processSites y m config l1).2 ++ (processSites y m config l2).2) := by
  induction l1 with
  | nil => rfl
  | cons p rest ih =>
    obtain ⟨file, content⟩ := p
    simp only [List.cons_append, processSites, List.append_eq]
    rw [ih]
    by_cases hcsv : pyEndsWith file ".csv" = true
    · rw [if_pos hcsv, if_pos hcsv]
      cases content with
      | error e => simp
      | ok rows =>
        cases hpf : processFile y m config (splitextStem file) rows with
        | none => simp [hpf]
        | some b => simp [hpf]
    · rw [if_neg hcsv, if_neg hcsv]

/-- C9: a failure reading or parsing one site's file does not abort the run:
the failing file contributes exactly one log line — which carries the file
identity — and no summary block, while the files before and after it are
processed exactly as they would be without it. -/
theorem claim_C9_per_file_isolation (y m : Nat) (config : Config)
    (pre post : List (String × Except String (List RawRow))) (file e : String)
    (hcsv : pyEndsWith file ".csv" = true) :
    processSites y m config (pre ++ (file, Except.error e) :: post) =
      ((processSites y m config pre).1 ++ (processSites y m config post).1,
       (processSites y m config pre).2 ++
         errorLog file e :: (processSites y m config post).2) ∧
    errorLog file e = "Error in " ++ file ++ (": " ++ e) := by
  constructor
  · rw [processSites_append]
    have hmid : processSites y m config ((file, Except.error e) :: post) =
        ((processSites y m config post).1,
         errorLog file e :: (processSites y m config post).2) := by
      simp only [processSites]
      rw [if_pos hcsv]
    rw [hmid]
  · unfold errorLog
    rw [String.append_assoc]

/-- C9 witness: a one-file run whose only file fails to read yields no
blocks and exactly its log line. -/
theorem claim_C9_per_file_isolation_witness :
    processSites 2025 5 cfgEx ([] ++ ("a.csv", Except.error "boom") :: []) =
      ((processSites 2025 5 cfgEx []).1 ++ (processSites 2025 5 cfgEx []).1,
       (processSites 2025 5 cfgEx []).2 ++
         errorLog "a.csv" "boom" :: (processSites 2025 5 cfgEx []).2) ∧
    errorLog "a.csv" "boom" = "Error in " ++ "a.csv" ++ (": " ++ "boom") :=
  claim_C9_per_file_isolation 2025 5 cfgEx [] [] "a.csv" "boom" (by decide)

/-- Character of one decimal digit. -/
def digitChar (k : Nat) : Char := Char.ofNat (48 + k)

/-- String concatenation concatenates the underlying character lists. -/
theorem str_data_append (s t : String) : (s ++ t).data = s.data ++ t.data := by
  cases s
  cases t
  rfl

/-- `pad2` of a value below 100 renders exactly its two digits. -/
theorem pad2_data : ∀ n, n < 100 → (pad2 n).data = [digitChar (n / 10), digitChar (n % 10)] := by
  decide

/-- Digit characters satisfy `isDigit`. -/
theorem isDigit_digitChar : ∀ k, k < 10 → (digitChar k).isDigit = true := by
  decide

/-- Reading the two rendered digits recovers the value. -/
theorem dv_digitChar : ∀ n, n < 100 → dv (digitChar (n / 10)) (digitChar (n % 10)) = n := by
  decide

/-- The window-span string of in-range timestamps, character by character. -/
theorem fmtWindow_data (tmin tmax : PyDateTime)
    (h1 : tmin.day < 100) (h2 : tmin.month < 100) (h3 : tmin.hour < 100)
    (h4 : tmin.minute < 100) (h5 : tmax.hour < 100) (h6 : tmax.minute < 100) :
    (fmtWindow tmin tmax).data =
      [digitChar (tmin.day / 10), digitChar (tmin.day % 10), '/',
       digitChar (tmin.month / 10), digitChar (tmin.month % 10), ' ',
       digitChar (tmin.hour / 10), digitChar (tmin.hour % 10), ':',
       digitChar (tmin.minute / 10), digitChar (tmin.minute % 10), '-',
       digitChar (tmax.hour / 10), digitChar (tmax.hour % 10), ':',
       digitChar (tmax.minute / 10), digitChar (tmax.minute % 10)] := by
  unfold fmtWindow
  simp only [str_data_append, pad2_data _ h1, pad2_data _ h2, pad2_data _ h3,
    pad2_data _ h4, pad2_data _ h5, pad2_data _ h6]
  rfl

/-- The ranker's regex finds the strftime-formatted window at position 0 and
its groups recover exactly the formatted day, month, hours and minutes. -/
theorem searchWindow_fmtWindow (tmin tmax : PyDateTime)
    (h1 : tmin.day < 100) (h2 : tmin.month < 100) (h3 : tmin.hour < 100)
    (h4 : tmin.minute < 100) (h5 : tmax.hour < 100) (h6 : tmax.minute < 100) :
    searchWindow (fmtWindow tmin tmax).data =
      some (tmin.day, tmin.month, tmin.hour, tmin.minute, tmax.hour, tmax.minute) := by
  rw [fmtWindow_data tmin tmax h1 h2 h3 h4 h5 h6]
  have hmatch : matchWindowAt
      [digitChar (tmin.day / 10), digitChar (tmin.day % 10), '/',
       digitChar (tmin.month / 10), digitChar (tmin.month % 10), ' ',
       digitChar (tmin.hour / 10), digitChar (tmin.hour % 10), ':',
       digitChar (tmin.minute / 10), digitChar (tmin.minute % 10), '-',
       digitChar (tmax.hour / 10), digitChar (tmax.hour % 10), ':',
       digitChar (tmax.minute / 10), digitChar (tmax.minute % 10)] =
      some (tmin.day, tmin.month, tmin.hour, tmin.minute, tmax.hour, tmax.minute) := by
    unfold matchWindowAt
    dsimp only
    rw [if_pos]
    · rw [dv_digitChar _ h1, dv_digitChar _ h2, dv_digitChar _ h3, dv_digitChar _ h4,
        dv_digitChar _ h5, dv_digitChar _ h6]
    · simp only [Bool.and_eq_true, beq_self_eq_true, and_true, true_and]
      repeat' apply And.intro
      all_goals apply isDigit_digitChar
      all_goals omega
  simp only [searchWindow]
  rw [hmatch]


/-- The fold computing `df.index.min()` returns one of its inputs. -/
theorem listMinDT_mem (t : PyDateTime) (ts : List PyDateTime) :
    listMinDT t ts = t ∨ listMinDT t ts ∈ ts := by
  induction ts generalizing t with
  | nil => left; rfl
  | cons b bs ih =>
    unfold listMinDT
    simp only [List.foldl_cons]
    rcases ih (if dtLe t b then t else b) with h | h
    · unfold listMinDT at h
      rw [h]
      by_cases hd : dtLe t b = true
      · rw [if_pos hd]; left; rfl
      · rw [if_neg hd]; right; exact List.mem_cons_self b bs
    · unfold listMinDT at h
      right
      exact List.mem_cons_of_mem b h

/-- The fold computing `df.index.max()` returns one of its inputs. -/
theorem listMaxDT_mem (t : PyDateTime) (ts : List PyDateTime) :
    listMaxDT t ts = t ∨ listMaxDT t ts ∈ ts := by
  induction ts generalizing t with
  | nil => left; rfl
  | cons b bs ih =>
    unfold listMaxDT
    simp only [List.foldl_cons]
    rcases ih (if dtLe b t then t else b) with h | h
    · unfold listMaxDT at h
      rw [h]
      by_cases hd : dtLe b t = true
      · rw [if_pos hd]; left; rfl
      · rw [if_neg hd]; right; exact List.mem_cons_self b bs
    · unfold listMaxDT at h
      right
      exact List.mem_cons_of_mem b h

/-- A day valid in some year's month, other than February 29, is valid in
the same month of 1900 (the default year of the ranker's reparse). -/
theorem day_le_daysInMonth1900 (y m d : Nat) (hm1 : 1 ≤ m) (hm2 : m ≤ 12)
    (hd : d ≤ daysInMonth y m) (hfeb : ¬(m = 2 ∧ d = 29)) :
    d ≤ daysInMonth 1900 m := by
  interval_cases m
  · rw [show daysInMonth 1900 1 = 31 from rfl]
    rw [show daysInMonth y 1 = 31 from rfl] at hd
    exact hd
  · rw [show daysInMonth 1900 2 = 28 from rfl]
    have hne : d ≠ 29 := fun h => hfeb ⟨rfl, h⟩
    rw [show daysInMonth y 2 = if isLeap y then 29 else 28 from rfl] at hd
    by_cases hl : isLeap y = true
    · rw [if_pos hl] at hd; omega
    · rw [if_neg hl] at hd; omega
  · rw [show daysInMonth 1900 3 = 31 from rfl]
    rw [show daysInMonth y 3 = 31 from rfl] at hd
    exact hd
  · rw [show daysInMonth 1900 4 = 30 from rfl]
    rw [show daysInMonth y 4 = 30 from rfl] at hd
    exact hd
  · rw [show daysInMonth 1900 5 = 31 from rfl]
    rw [show daysInMonth y 5 = 31 from rfl] at hd
    exact hd
  · rw [show daysInMonth 1900 6 = 30 from rfl]
    rw [show daysInMonth y 6 = 30 from rfl] at hd
    exact hd
  · rw [show daysInMonth 1900 7 = 31 from rfl]
    rw [show daysInMonth y 7 = 31 from rfl] at hd
    exact hd
  · rw [show daysInMonth 1900 8 = 31 from rfl]
    rw [show daysInMonth y 8 = 31 from rfl] at hd
    exact hd
  · rw [show daysInMonth 1900 9 = 30 from rfl]
    rw [show daysInMonth y 9 = 30 from rfl] at hd
    exact hd
  · rw [show daysInMonth 1900 10 = 31 from rfl]
    rw [show daysInMonth y 10 = 31 from rfl] at hd
    exact hd
  · rw [show daysInMonth 1900 11 = 30 from rfl]
    rw [show daysInMonth y 11 = 30 from rfl] at hd
    exact hd
  · rw [show daysInMonth 1900 12 = 31 from rfl]
    rw [show daysInMonth y 12 = 31 from rfl] at hd
    exact hd

/-- Filtered observations come from the input series. -/
theorem filter_window_subset (df : List Obs) (config : Config) (x : Obs)
    (hx : x ∈ filter_window df config) : x ∈ df := by
  unfold filter_window at hx
  rw [List.mem_filter] at hx
  rw [List.mem_filter] at hx
  exact hx.1.1

/-- C10 (amended): for every window produced by the Window Detector from
valid timestamps, except when the window starts on February 29 (of a leap
year of the run), the Summary Ranker's regex extraction succeeds on the
window string, and the reconstructed Start and End timestamps are defined
(not NaT), the Start agreeing with the window's minimum timestamp in day,
month, hour and minute.  A February 29 window is the excluded case: the
reparse defaults to year 1900, which has no February 29. -/
theorem claim_C10_window_roundtrip (df : List Obs) (config : Config) (o : Obs) (rest : List Obs)
    (tmin tmax : PyDateTime)
    (hv : ∀ x ∈ df, x.datetime.Valid)
    (hf : filter_window df config = o :: rest)
    (hlen : config.MIN_BLOCK_LENGTH ≤ (o :: rest).length)
    (hmin : tmin = listMinDT o.datetime (rest.map (fun x => x.datetime)))
    (hmax : tmax = listMaxDT o.datetime (rest.map (fun x => x.datetime)))
    (hfeb : ¬(tmin.month = 2 ∧ tmin.day = 29)) :
    ∃ r, is_valid_window df config = some r ∧ r.window = fmtWindow tmin tmax ∧
      searchWindow (fmtWindow tmin tmax).data =
        some (tmin.day, tmin.month, tmin.hour, tmin.minute, tmax.hour, tmax.minute) ∧
      toDatetime1900 tmin.day tmin.month tmin.hour tmin.minute =
        some ⟨1900, tmin.month, tmin.day, tmin.hour, tmin.minute⟩ ∧
      (toDatetime1900 tmin.day tmin.month tmax.hour tmax.minute).isSome = true := by
  have hvalid : ∀ x ∈ o :: rest, x.datetime.Valid := by
    intro x hx
    exact hv x (filter_window_subset df config x (hf ▸ hx))
  have hvmin : tmin.Valid := by
    rcases listMinDT_mem o.datetime (rest.map (fun x => x.datetime)) with h | h
    · rw [hmin, h]
      exact hvalid o (List.mem_cons_self o rest)
    · rw [List.mem_map] at h
      obtain ⟨x, hxr, hxt⟩ := h
      rw [hmin, ← hxt]
      exact hvalid x (List.mem_cons_of_mem o hxr)
  have hvmax : tmax.Valid := by
    rcases listMaxDT_mem o.datetime (rest.map (fun x => x.datetime)) with h | h
    · rw [hmax, h]
      exact hvalid o (List.mem_cons_self o rest)
    · rw [List.mem_map] at h
      obtain ⟨x, hxr, hxt⟩ := h
      rw [hmax, ← hxt]
      exact hvalid x (List.mem_cons_of_mem o hxr)
  obtain ⟨-, -, hmm1, hmm2, hdd1, hdd2, hhh, hmmi⟩ := hvmin
  obtain ⟨-, -, -, -, -, -, hhh2, hmmi2⟩ := hvmax
  have hdb := daysInMonth_le_31 tmin.year tmin.month
  have hsw : searchWindow (fmtWindow tmin tmax).data =
      some (tmin.day, tmin.month, tmin.hour, tmin.minute, tmax.hour, tmax.minute) := by
    apply searchWindow_fmtWindow <;> omega
  have hstart : toDatetime1900 tmin.day tmin.month tmin.hour tmin.minute =
      some ⟨1900, tmin.month, tmin.day, tmin.hour, tmin.minute⟩ := by
    unfold toDatetime1900
    rw [if_pos]
    refine ⟨hmm1, hmm2, hdd1, ?_, by omega, by omega⟩
    exact day_le_daysInMonth1900 tmin.year tmin.month tmin.day hmm1 hmm2 hdd2 hfeb
  have hend : (toDatetime1900 tmin.day tmin.month tmax.hour tmax.minute).isSome = true := by
    unfold toDatetime1900
    rw [if_pos]
    · rfl
    refine ⟨hmm1, hmm2, hdd1, ?_, by omega, by omega⟩
    exact day_le_daysInMonth1900 tmin.year tmin.month tmin.day hmm1 hmm2 hdd2 hfeb
  have his : is_valid_window df config =
      some ⟨fmtWindow (listMinDT o.datetime (rest.map (fun x => x.datetime)))
              (listMaxDT o.datetime (rest.map (fun x => x.datetime))),
            pyRound1 (((o :: rest).map (fun x => x.wind_speed)).sum / ((o :: rest).length : ℚ)),
            circular_mean (((o :: rest).map (fun x => x.wind_dir)).map (fun q => (q : ℝ)))⟩ := by
    unfold is_valid_window
    dsimp only
    rw [hf]
    rw [if_pos hlen]
  refine ⟨_, his, ?_, hsw, hstart, hend⟩
  rw [hmin, hmax]


/-- C10 witness: a concrete two-observation May series round-trips. -/
theorem claim_C10_window_roundtrip_witness :
    ∃ r, is_valid_window
        [⟨⟨2025, 5, 7, 10, 0⟩, 20, 90, 25⟩, ⟨⟨2025, 5, 7, 12, 0⟩, 18, 100, 22⟩]
        cfgEx = some r ∧
      r.window = fmtWindow ⟨2025, 5, 7, 10, 0⟩ ⟨2025, 5, 7, 12, 0⟩ ∧
      searchWindow (fmtWindow ⟨2025, 5, 7, 10, 0⟩ ⟨2025, 5, 7, 12, 0⟩).data =
        some (7, 5, 10, 0, 12, 0) ∧
      toDatetime1900 7 5 10 0 = some ⟨1900, 5, 7, 10, 0⟩ ∧
      (toDatetime1900 7 5 12 0).isSome = true :=
  claim_C10_window_roundtrip
    [⟨⟨2025, 5, 7, 10, 0⟩, 20, 90, 25⟩, ⟨⟨2025, 5, 7, 12, 0⟩, 18, 100, 22⟩]
    cfgEx
    ⟨⟨2025, 5, 7, 10, 0⟩, 20, 90, 25⟩ [⟨⟨2025, 5, 7, 12, 0⟩, 18, 100, 22⟩]
    ⟨2025, 5, 7, 10, 0⟩ ⟨2025, 5, 7, 12, 0⟩
    (by decide) (by decide) (by decide) (by decide) (by decide) (by decide)

/-- C10 (counterexample): a series of valid February 29 observations (leap
year 2024) produces the window string `"29/02 10:00-12:00"`; the regex
extraction succeeds, but `pd.to_datetime(..., format="%d/%m %H:%M")`
defaults the year to 1900 and coerces `29/02` to NaT — the reconstructed
Start is missing, contrary to the claim. -/
theorem claim_C10_counterexample :
    (∀ x ∈ [(⟨⟨2024, 2, 29, 10, 0⟩, 20, 90, 25⟩ : Obs), ⟨⟨2024, 2, 29, 12, 0⟩, 18, 100, 22⟩],
      x.datetime.Valid) ∧
    (is_valid_window
      [⟨⟨2024, 2, 29, 10, 0⟩, 20, 90, 25⟩, ⟨⟨2024, 2, 29, 12, 0⟩, 18, 100, 22⟩]
      cfgEx).map WindowResult.window = some "29/02 10:00-12:00" ∧
    searchWindow ("29/02 10:00-12:00").data = some (29, 2, 10, 0, 12, 0) ∧
    toDatetime1900 29 2 10 0 = none ∧
    windowStartMin "29/02 10:00-12:00" = none := by
  refine ⟨by decide, ?_, by decide, by decide, by decide⟩
  rfl


end WindBot
